import Mathlib

/-!
Shallow embedding of the deployment-orchestration logic of the
mech-quickstart scripts (run_service.py, utils.py, setup_metadata_hash.py,
stop_service.py), together with theorems settling the frozen claims about
the natural-language specification.

Machine integers are modelled as Nat (all the quantities involved are
non-negative wei / token amounts and list lengths).  Unbounded polling
loops are modelled with an explicit fuel parameter: `none` means the loop
has not terminated within `fuel` iterations, so "the loop never
terminates" is rendered as "for every fuel the result is `none`".
-/

namespace MechQuickstart

/-! ### Constants (run_service.py)

`unit_to_wei(unit) = int(unit * 1e18)`; the concrete products below are
exact in floating point, so the Nat literals are the values the script
computes. -/

def COST_OF_BOND : Nat := 1

def COST_OF_STAKING : Nat := 10 ^ 20

def COST_OF_BOND_STAKING : Nat := 5 * 10 ^ 19

/-- CHAIN_ID_TO_METADATA entries carry (besides name/token strings) the two
funding thresholds consulted by the wallet funding gate. -/
structure ChainMetadata where
  firstTimeTopUp : Nat
  operationalFundReq : Nat
deriving DecidableEq, Repr

/-- CHAIN_ID_TO_METADATA[100] : both thresholds are unit_to_wei(0.5). -/
def gnosisMetadata : ChainMetadata :=
  { firstTimeTopUp := 500000000000000000, operationalFundReq := 500000000000000000 }

/-! ### C1 : get_service (run_service.py 502-525, identical in utils.py 436-459)

The function consults `manager.json` (the local service index, a list of
records each carrying a "hash" field) and the freshly built template, and
issues calls on the service manager.  We record the trace of manager calls
issued. -/

/-- A record of the local service index: only its "hash" field is read. -/
structure ServiceRecord where
  hash : String
deriving DecidableEq, Repr

/-- The template fields consulted by get_service: only "hash". -/
structure STemplate where
  hash : String
deriving DecidableEq, Repr

/-- The service-manager calls get_service can issue. -/
inductive ManagerCall where
  | load_or_create (hash : String)
  | update_service (old_hash : String) (new_hash : String)
deriving DecidableEq, Repr

/-- Trace of manager calls issued by get_service
(`if len(manager.json) > 0` / `old_hash = manager.json[0]["hash"]`). -/
def get_service_calls (managerJson : List ServiceRecord) (template : STemplate) :
    List ManagerCall :=
  match managerJson with
  | [] =>
    -- len(manager.json) == 0 : create branch
    [ManagerCall.load_or_create template.hash]
  | first :: _ =>
    if first.hash = template.hash then
      -- load branch
      [ManagerCall.load_or_create template.hash]
    else
      -- update branch
      [ManagerCall.update_service first.hash template.hash]

/-- C1: get_service performs hash-based reconciliation: empty index issues
exactly one create (load_or_create with the template hash); matching first
hash issues exactly one load_or_create and no update; differing hash
issues exactly one update_service from the existing record's hash to the
template's hash.  No other combination of calls occurs. -/
theorem get_service_reconciliation (mj : List ServiceRecord) (t : STemplate) :
    (mj = [] → get_service_calls mj t = [ManagerCall.load_or_create t.hash]) ∧
    (∀ r rs, mj = r :: rs → r.hash = t.hash →
      get_service_calls mj t = [ManagerCall.load_or_create t.hash]) ∧
    (∀ r rs, mj = r :: rs → r.hash ≠ t.hash →
      get_service_calls mj t = [ManagerCall.update_service r.hash t.hash]) := by
  refine ⟨?_, ?_, ?_⟩
  · rintro rfl; rfl
  · rintro r rs rfl h
    simp [get_service_calls, h]
  · rintro r rs rfl h
    simp [get_service_calls, h]

/-- Witness for the reconciliation theorem at concrete inputs. -/
theorem get_service_reconciliation_witness :
    get_service_calls [⟨"oldh"⟩] ⟨"newh"⟩ =
      [ManagerCall.update_service "oldh" "newh"] :=
  (get_service_reconciliation [⟨"oldh"⟩] ⟨"newh"⟩).2.2 ⟨"oldh"⟩ [] rfl (by decide)

/-! ### C2 : the safe funding loop (run_service.py 654-678)

```
while ledger_api.get_balance(address) < first_time_top_up:
    wallet.transfer(...)
    time.sleep(1)
```

`bal n` is the balance observed by the n-th `get_balance` call of the
loop.  The loop re-checks the balance at the top of every iteration and
issues one transfer per iteration taken.  The result counts the transfers
issued, `none` if the loop has not exited within `fuel` iterations. -/

def safe_funding_loop (bal : Nat → Nat) (first_time_top_up : Nat) :
    Nat → Nat → Option Nat
  | _, 0 => none
  | k, fuel + 1 =>
    if bal k < first_time_top_up then
      Option.map (· + 1) (safe_funding_loop bal first_time_top_up (k + 1) fuel)
    else
      some 0

theorem safe_funding_loop_transfers_below (bal : Nat → Nat) (thr : Nat) :
    ∀ fuel k n, safe_funding_loop bal thr k fuel = some n →
      ∀ i, i < n → bal (k + i) < thr := by
  intro fuel
  induction fuel with
  | zero => intro k n h; simp [safe_funding_loop] at h
  | succ f ih =>
    intro k n h i hi
    rw [safe_funding_loop] at h
    by_cases hb : bal k < thr
    · rw [if_pos hb] at h
      match hrec : safe_funding_loop bal thr (k + 1) f with
      | none => rw [hrec] at h; simp at h
      | some m =>
        rw [hrec] at h
        simp at h
        subst h
        match i with
        | 0 => simpa using hb
        | j + 1 =>
          have := ih (k + 1) m hrec j (by omega)
          have hx : k + 1 + j = k + (j + 1) := by omega
          rwa [hx] at this
    · rw [if_neg hb] at h
      simp at h
      omega

/-- C2: in the safe funding loop the balance is re-checked before every
transfer: whenever the loop exits having issued `n` transfers, the balance
observed right before the i-th transfer was below the threshold, for every
i < n; and when the first observed balance is already at or above the
threshold, zero transfers are issued. -/
theorem safe_funding_no_transfer_at_threshold (bal : Nat → Nat) (thr : Nat) :
    (∀ fuel k n, safe_funding_loop bal thr k fuel = some n →
      ∀ i, i < n → bal (k + i) < thr) ∧
    (thr ≤ bal 0 → ∀ fuel, safe_funding_loop bal thr 0 (fuel + 1) = some 0) := by
  constructor
  · exact safe_funding_loop_transfers_below bal thr
  · intro h fuel
    rw [safe_funding_loop, if_neg (by omega)]

/-- Witness: a balance sequence starting at the threshold issues zero
transfers. -/
theorem safe_funding_no_transfer_at_threshold_witness :
    safe_funding_loop (fun _ => 7) 7 0 1 = some 0 :=
  (safe_funding_no_transfer_at_threshold (fun _ => 7) 7).2 (by decide) 0

/-! ### C3 : the wallet funding gate (run_service.py 619-636)

```
required_balance = (chain_metadata["firstTimeTopUp"] if not safe_exists
                    else chain_metadata["operationalFundReq"])
...
while ledger_api.get_balance(wallet.crypto.address) < required_balance:
    time.sleep(1)
```

The loop exits returning control with the last observed balance; we
return that observation. -/

def required_balance (safe_exists : Bool) (chain_metadata : ChainMetadata) : Nat :=
  if !safe_exists then chain_metadata.firstTimeTopUp
  else chain_metadata.operationalFundReq

def wallet_wait_loop (bal : Nat → Nat) (required : Nat) : Nat → Nat → Option Nat
  | _, 0 => none
  | k, fuel + 1 =>
    if bal k < required then wallet_wait_loop bal required (k + 1) fuel
    else some (bal k)

theorem wallet_wait_loop_exit_ge (bal : Nat → Nat) (req : Nat) :
    ∀ fuel k b, wallet_wait_loop bal req k fuel = some b → req ≤ b := by
  intro fuel
  induction fuel with
  | zero => intro k b h; simp [wallet_wait_loop] at h
  | succ f ih =>
    intro k b h
    rw [wallet_wait_loop] at h
    by_cases hb : bal k < req
    · rw [if_pos hb] at h; exact ih (k + 1) b h
    · rw [if_neg hb] at h; simp at h; omega

theorem wallet_wait_loop_terminates (bal : Nat → Nat) (req : Nat) :
    ∀ fuel k, (∃ j, j < fuel ∧ req ≤ bal (k + j)) →
      ∃ b, wallet_wait_loop bal req k fuel = some b := by
  intro fuel
  induction fuel with
  | zero => rintro k ⟨j, hj, -⟩; omega
  | succ f ih =>
    rintro k ⟨j, hj, hge⟩
    rw [wallet_wait_loop]
    by_cases hb : bal k < req
    · rw [if_pos hb]
      match j, hj, hge with
      | 0, _, hge =>
        simp only [Nat.add_zero] at hge
        omega
      | j' + 1, hj, hge =>
        refine ih (k + 1) ⟨j', by omega, ?_⟩
        have hx : k + 1 + j' = k + (j' + 1) := by omega
        rwa [hx]
    · rw [if_neg hb]; exact ⟨bal k, rfl⟩

theorem wallet_wait_loop_diverges (bal : Nat → Nat) (req : Nat)
    (hnever : ∀ n, bal n < req) :
    ∀ fuel k, wallet_wait_loop bal req k fuel = none := by
  intro fuel
  induction fuel with
  | zero => intro k; rfl
  | succ f ih =>
    intro k
    rw [wallet_wait_loop, if_pos (hnever k)]
    exact ih (k + 1)

/-- C3: the wallet funding gate waits while the observed balance is below
the threshold: if the balance sequence eventually reaches the threshold
the loop terminates (some fuel suffices) and the observation it exits with
is ≥ the threshold; a returned observation is always ≥ the threshold (the
gate never proceeds below it); if the sequence never reaches the
threshold, the loop never terminates (every fuel yields none).  The
threshold is firstTimeTopUp when no Safe exists for the chain and
operationalFundReq otherwise. -/
theorem wallet_funding_gate (bal : Nat → Nat) (req : Nat) :
    ((∃ n, req ≤ bal n) →
      ∃ fuel b, wallet_wait_loop bal req 0 fuel = some b ∧ req ≤ b) ∧
    (∀ fuel b, wallet_wait_loop bal req 0 fuel = some b → req ≤ b) ∧
    ((∀ n, bal n < req) → ∀ fuel, wallet_wait_loop bal req 0 fuel = none) ∧
    (∀ meta : ChainMetadata,
      required_balance false meta = meta.firstTimeTopUp ∧
      required_balance true meta = meta.operationalFundReq) := by
  refine ⟨?_, ?_, ?_, ?_⟩
  · rintro ⟨n, hn⟩
    obtain ⟨b, hb⟩ :=
      wallet_wait_loop_terminates bal req (n + 1) 0 ⟨n, by omega, by simpa using hn⟩
    exact ⟨n + 1, b, hb, wallet_wait_loop_exit_ge bal req (n + 1) 0 b hb⟩
  · intro fuel b h
    exact wallet_wait_loop_exit_ge bal req fuel 0 b h
  · intro h fuel
    exact wallet_wait_loop_diverges bal req h fuel 0
  · intro meta
    exact ⟨rfl, rfl⟩

/-- Witness: a sequence reaching the threshold at its third observation
terminates with an observation at or above the threshold. -/
theorem wallet_funding_gate_witness :
    ∃ fuel b, wallet_wait_loop (fun n => if n < 2 then 0 else 5) 5 0 fuel = some b ∧
      5 ≤ b :=
  (wallet_funding_gate (fun n => if n < 2 then 0 else 5) 5).1 ⟨2, by decide⟩

/-! ### C6 : the staking bond gate (run_service.py 680-701)

```
if chain_config.chain_data.user_params.use_staking and not service_exists:
    ...
    while (get_erc20_balance(ledger_api, olas_address, address)
           < COST_OF_STAKING + COST_OF_BOND_STAKING):
        time.sleep(1)
```
-/

/-- The guard of the staking bond gate. -/
def staking_gate_runs (use_staking : Bool) (service_exists : Bool) : Bool :=
  use_staking && !service_exists

/-- The waiting loop of the staking bond gate; `erc20_bal n` is the
staking-token balance observed by the n-th `get_erc20_balance` call.
Returns the observation the gate proceeds with, `none` if the loop has
not exited within `fuel` iterations. -/
def staking_bond_gate (erc20_bal : Nat → Nat) : Nat → Nat → Option Nat
  | _, 0 => none
  | k, fuel + 1 =>
    if erc20_bal k < COST_OF_STAKING + COST_OF_BOND_STAKING then
      staking_bond_gate erc20_bal (k + 1) fuel
    else
      some (erc20_bal k)

theorem staking_bond_gate_exit_ge (bal : Nat → Nat) :
    ∀ fuel k b, staking_bond_gate bal k fuel = some b →
      COST_OF_STAKING + COST_OF_BOND_STAKING ≤ b := by
  intro fuel
  induction fuel with
  | zero => intro k b h; simp [staking_bond_gate] at h
  | succ f ih =>
    intro k b h
    rw [staking_bond_gate] at h
    by_cases hb : bal k < COST_OF_STAKING + COST_OF_BOND_STAKING
    · rw [if_pos hb] at h; exact ih (k + 1) b h
    · rw [if_neg hb] at h; simp at h; omega

theorem staking_bond_gate_diverges (bal : Nat → Nat)
    (hnever : ∀ n, bal n < COST_OF_STAKING + COST_OF_BOND_STAKING) :
    ∀ fuel k, staking_bond_gate bal k fuel = none := by
  intro fuel
  induction fuel with
  | zero => intro k; rfl
  | succ f ih =>
    intro k
    rw [staking_bond_gate, if_pos (hnever k)]
    exact ih (k + 1)

/-- C6 counterexample: the claim says the gate proceeds only once the
observed staking-token balance strictly exceeds
COST_OF_STAKING + COST_OF_BOND_STAKING, but for the constant balance
sequence equal to that sum the gate proceeds immediately with an
observation that does not exceed the sum. -/
theorem staking_gate_strict_exceed_counterexample :
    staking_bond_gate (fun _ => COST_OF_STAKING + COST_OF_BOND_STAKING) 0 1 =
      some (COST_OF_STAKING + COST_OF_BOND_STAKING) ∧
    ¬ (COST_OF_STAKING + COST_OF_BOND_STAKING <
        COST_OF_STAKING + COST_OF_BOND_STAKING) := by
  refine ⟨?_, lt_irrefl _⟩
  rw [staking_bond_gate, if_neg (lt_irrefl _)]

/-- C6 amended: the staking bond gate runs if and only if the chain
configuration uses staking and the service did not previously exist
on-chain; it proceeds only once the observed staking-token balance is at
or above (not strictly above) COST_OF_STAKING + COST_OF_BOND_STAKING, and
while every observation is below that sum it keeps waiting. -/
theorem staking_bond_gate_amended (u s : Bool) (bal : Nat → Nat) :
    (staking_gate_runs u s = true ↔ (u = true ∧ s = false)) ∧
    (∀ fuel k b, staking_bond_gate bal k fuel = some b →
      COST_OF_STAKING + COST_OF_BOND_STAKING ≤ b) ∧
    ((∀ n, bal n < COST_OF_STAKING + COST_OF_BOND_STAKING) →
      ∀ fuel k, staking_bond_gate bal k fuel = none) := by
  refine ⟨?_, staking_bond_gate_exit_ge bal, staking_bond_gate_diverges bal⟩
  cases u <;> cases s <;> simp [staking_gate_runs]

/-- Witness: at the constant sequence equal to the sum, the gate exits with
an observation at or above the sum. -/
theorem staking_bond_gate_amended_witness :
    COST_OF_STAKING + COST_OF_BOND_STAKING ≤
      COST_OF_STAKING + COST_OF_BOND_STAKING :=
  (staking_bond_gate_amended true false
      (fun _ => COST_OF_STAKING + COST_OF_BOND_STAKING)).2.1 1 0
    (COST_OF_STAKING + COST_OF_BOND_STAKING)
    (by rw [staking_bond_gate, if_neg (lt_irrefl _)])

/-! ### C10 : the stop command (stop_service.py 35-67)

The effects main can perform, in order; the branch on the existence of
OPERATE_HOME / "local_config.json" happens right after operate.setup(). -/

inductive StopAction where
  | setup
  | load_local_config
  | backup_db
  | stop_service_locally
  | exitCode (code : Nat)
deriving DecidableEq, Repr

/-- Trace of effects of stop_service.main, parameterised by whether the
local config file and the database backup source exist. -/
def stop_service_main (local_config_exists : Bool) (db_exists : Bool) :
    List StopAction :=
  StopAction.setup ::
    (if !local_config_exists then
      [StopAction.exitCode 0]
    else
      StopAction.load_local_config ::
        ((if db_exists then [StopAction.backup_db] else []) ++
          [StopAction.stop_service_locally]))

/-- C10: when the local config file does not exist, the stop command exits
with status 0 right after setup, without loading any configuration,
creating any backup, or stopping any service. -/
theorem stop_without_config_exits_zero (db_exists : Bool) :
    stop_service_main false db_exists = [StopAction.setup, StopAction.exitCode 0] ∧
    StopAction.load_local_config ∉ stop_service_main false db_exists ∧
    StopAction.backup_db ∉ stop_service_main false db_exists ∧
    StopAction.stop_service_locally ∉ stop_service_main false db_exists := by
  refine ⟨rfl, ?_, ?_, ?_⟩ <;> simp [stop_service_main]

/-! ### Python values

A JSON-like value universe for the dictionaries the scripts manipulate
(parsed JSON metadata, env-var maps).  Python dicts are association lists
in insertion order; floats do not occur in the modelled checks. -/

inductive JValue where
  | s (v : String)
  | i (v : Int)
  | b (v : Bool)
  | null
  | list (xs : List JValue)
  | dict (entries : List (String × JValue))

mutual

/-- Python repr() on the modelled values (string escaping inside repr is
not modelled; the strings involved contain no quotes or escapes). -/
def pyRepr : JValue → String
  | .s v => "'" ++ v ++ "'"
  | .i n => toString n
  | .b true => "True"
  | .b false => "False"
  | .null => "None"
  | .list xs => "[" ++ String.intercalate ", " (pyReprList xs) ++ "]"
  | .dict es => "\x7b" ++ String.intercalate ", " (pyReprDict es) ++ "\x7d"

def pyReprList : List JValue → List String
  | [] => []
  | x :: xs => pyRepr x :: pyReprList xs

def pyReprDict : List (String × JValue) → List String
  | [] => []
  | (k, v) :: es => ("'" ++ k ++ "': " ++ pyRepr v) :: pyReprDict es

end

/-- Python str() : identity on strings, repr() on the other values. -/
def pyStr : JValue → String
  | .s v => v
  | v => pyRepr v

/-! ### C8 : ask_confirm_password (utils.py 210-218, identical in
run_service.py 209-217) and the account-creation step that invokes it
(run_service.py 563-572). -/

/-- Outcome of an interactive step: a normal return, or sys.exit with a
code after printing a message. -/
inductive PwOutcome where
  | ok (password : String)
  | exited (code : Nat) (msg : String)
deriving DecidableEq, Repr

def ask_confirm_password (password : String) (confirm_password : String) :
    PwOutcome :=
  if password = confirm_password then
    PwOutcome.ok password
  else
    PwOutcome.exited 1 "Passwords do not match. Terminating."

/-- The account-creation step of run_service.main: it calls
ask_confirm_password and, only when it returns, creates the user account,
sets password_migrated and store()s the local config.  The Nat component
counts the local-config store() calls the step performs; on a mismatch
sys.exit(1) aborts the step before any store. -/
def create_account_step (password : String) (confirm_password : String) :
    PwOutcome × Nat :=
  match ask_confirm_password password confirm_password with
  | PwOutcome.ok pw => (PwOutcome.ok pw, 1)
  | PwOutcome.exited c m => (PwOutcome.exited c m, 0)

/-- C8: ask_confirm_password returns the password exactly when the two
entries are equal; on any mismatch it exits with the specific message and
code 1 (non-zero), and in that invocation the entry-gathering step
performs no local-config store. -/
theorem ask_confirm_password_spec (p c : String) :
    ((∃ pw, ask_confirm_password p c = PwOutcome.ok pw ∧ pw = p) ↔ p = c) ∧
    (p ≠ c →
      ask_confirm_password p c =
        PwOutcome.exited 1 "Passwords do not match. Terminating." ∧
      (create_account_step p c).2 = 0 ∧ (1 : Nat) ≠ 0) := by
  constructor
  · constructor
    · rintro ⟨pw, hok, -⟩
      by_contra hne
      rw [ask_confirm_password, if_neg hne] at hok
      exact PwOutcome.noConfusion hok
    · intro h
      exact ⟨p, by rw [ask_confirm_password, if_pos h], rfl⟩
  · intro hne
    have hask : ask_confirm_password p c =
        PwOutcome.exited 1 "Passwords do not match. Terminating." := by
      rw [ask_confirm_password, if_neg hne]
    refine ⟨hask, ?_, by omega⟩
    rw [create_account_step, hask]

/-- Witness: a concrete mismatched pair exits with code 1 and no store. -/
theorem ask_confirm_password_spec_witness :
    ask_confirm_password "pw1" "pw2" =
      PwOutcome.exited 1 "Passwords do not match. Terminating." ∧
    (create_account_step "pw1" "pw2").2 = 0 ∧ (1 : Nat) ≠ 0 :=
  (ask_confirm_password_spec "pw1" "pw2").2 (by decide)

/-! ### C9 : apply_env_vars (utils.py 383-387, identical in
run_service.py 405-409)

```
for key, value in env_vars.items():
    if value is not None:
        os.environ[key] = str(value)
```

os.environ is modelled as a map String → Option String, env_vars as an
association list in dict iteration order (a Python dict has pairwise
distinct keys). -/

def apply_env_vars : List (String × Option JValue) → (String → Option String) →
    (String → Option String)
  | [], environ => environ
  | (key, value) :: rest, environ =>
    match value with
    | some v =>
      apply_env_vars rest (fun q => if q = key then some (pyStr v) else environ q)
    | none => apply_env_vars rest environ

theorem apply_env_vars_not_mem (evs : List (String × Option JValue))
    (environ : String → Option String) (k : String)
    (hk : k ∉ evs.map Prod.fst) :
    apply_env_vars evs environ k = environ k := by
  induction evs generalizing environ with
  | nil => rfl
  | cons e rest ih =>
    obtain ⟨k', v'⟩ := e
    simp only [List.map_cons, List.mem_cons] at hk
    push_neg at hk
    obtain ⟨hne, hnotin⟩ := hk
    cases v' with
    | none => exact ih environ hnotin
    | some val =>
      rw [apply_env_vars]
      rw [ih (fun q => if q = k' then some (pyStr val) else environ q) hnotin]
      simp [hne]

/-- C9: apply_env_vars leaves the environment unchanged at every key whose
value is None, sets the environment at a key with a non-None value to
str(value), and does not modify any key absent from the input map. -/
theorem apply_env_vars_frame (evs : List (String × Option JValue))
    (environ : String → Option String) (k : String)
    (hnd : (evs.map Prod.fst).Nodup) :
    (List.lookup k evs = some none → apply_env_vars evs environ k = environ k) ∧
    (∀ v, List.lookup k evs = some (some v) →
      apply_env_vars evs environ k = some (pyStr v)) ∧
    (List.lookup k evs = none → apply_env_vars evs environ k = environ k) := by
  induction evs generalizing environ with
  | nil =>
    refine ⟨fun h => ?_, fun v h => ?_, fun _ => rfl⟩ <;> simp [List.lookup] at h
  | cons e rest ih =>
    obtain ⟨k', v'⟩ := e
    simp only [List.map_cons, List.nodup_cons] at hnd
    obtain ⟨hk'notin, hndrest⟩ := hnd
    by_cases hk : k = k'
    · subst hk
      have hlk : List.lookup k ((k, v') :: rest) = some v' := by
        simp [List.lookup]
      cases v' with
      | none =>
        refine ⟨fun _ => ?_, fun v h => ?_, fun h => ?_⟩
        · exact apply_env_vars_not_mem rest environ k hk'notin
        · rw [hlk] at h; exact Option.noConfusion h (fun h2 => Option.noConfusion h2)
        · rw [hlk] at h; exact Option.noConfusion h
      | some val =>
        refine ⟨fun h => ?_, fun v h => ?_, fun h => ?_⟩
        · rw [hlk] at h
          exact absurd (Option.some.inj h) (fun h2 => Option.noConfusion h2)
        · rw [hlk] at h
          have hv : val = v := Option.some.inj (Option.some.inj h)
          subst hv
          rw [apply_env_vars]
          rw [apply_env_vars_not_mem rest _ k hk'notin]
          simp
        · rw [hlk] at h; exact Option.noConfusion h
    · have hlk : List.lookup k ((k', v') :: rest) = List.lookup k rest := by
        simp only [List.lookup]
        rw [show (k == k') = false from beq_eq_false_iff_ne.mpr hk]
      cases v' with
      | none =>
        rw [apply_env_vars, hlk]
        exact ih environ hndrest
      | some val =>
        rw [apply_env_vars, hlk]
        have := ih (fun q => if q = k' then some (pyStr val) else environ q) hndrest
        simpa [hk] using this

/-- Witness: a concrete map with one set key and one None key applied at
the set key. -/
theorem apply_env_vars_frame_witness :
    apply_env_vars [("SAFE_CONTRACT_ADDRESSES", some (JValue.s "0xabc")),
        ("API_KEYS", none)] (fun _ => none) "SAFE_CONTRACT_ADDRESSES" =
      some "0xabc" :=
  (apply_env_vars_frame
      [("SAFE_CONTRACT_ADDRESSES", some (JValue.s "0xabc")), ("API_KEYS", none)]
      (fun _ => none) "SAFE_CONTRACT_ADDRESSES" (by simp)).2.1
    (JValue.s "0xabc") rfl

/-! ### Local configuration (utils.py MechQuickstartConfig, 46-79)

The dataclass fields, all optional and absent by default; the `path`
field (the file location) is a boundary concern and is not part of the
value.  Dict-valued fields are association lists. -/

structure MechQuickstartConfig where
  gnosis_rpc : Option String := none
  password_migrated : Option Bool := none
  use_staking : Option Bool := none
  api_keys_path : Option String := none
  metadata_hash : Option String := none
  agent_id : Option Int := none
  mech_address : Option String := none
  tools_to_packages_hash : Option (List (String × String)) := none
  mech_hash : Option String := none
  home_chain_id : Option Int := none
deriving Repr

/-! ### C5 : the digest passed by deploy_mech (utils.py 504-509)

`bytes.fromhex(local_config.metadata_hash.lstrip("f01701220"))` -/

/-- Python str.lstrip(chars): removes leading characters as long as they
belong to the character SET chars (not the literal leading substring). -/
def pyLstripAux : List Char → List Char → List Char
  | [], _ => []
  | c :: rest, chars =>
    if c ∈ chars then pyLstripAux rest chars else c :: rest

def pyLstrip (s : String) (chars : String) : String :=
  String.mk (pyLstripAux s.data chars.data)

/-- Value of a hexadecimal digit character. -/
def hexDigitVal (c : Char) : Option Nat :=
  if 48 ≤ c.toNat ∧ c.toNat ≤ 57 then some (c.toNat - 48)
  else if 97 ≤ c.toNat ∧ c.toNat ≤ 102 then some (c.toNat - 87)
  else if 65 ≤ c.toNat ∧ c.toNat ≤ 70 then some (c.toNat - 55)
  else none

/-- Python bytes.fromhex on a string of hex-digit pairs: one byte per
pair; none models the ValueError on an odd-length or non-hex string.
(CPython additionally permits ASCII spaces between pairs; no input here
contains spaces.) -/
def bytesFromHexAux : List Char → Option (List Nat)
  | [] => some []
  | [_] => none
  | c1 :: c2 :: rest =>
    match hexDigitVal c1, hexDigitVal c2, bytesFromHexAux rest with
    | some hi, some lo, some bs => some ((16 * hi + lo) :: bs)
    | _, _, _ => none

def bytes_fromhex (s : String) : Option (List Nat) :=
  bytesFromHexAux s.data

/-- The digest bytes deploy_mech computes for the factory create call:
`bytes.fromhex(local_config.metadata_hash.lstrip("f01701220"))`. -/
def deploy_mech_digest (metadata_hash : String) : Option (List Nat) :=
  bytes_fromhex (pyLstrip metadata_hash "f01701220")

/-- The digest as the claim describes it: remove precisely the fixed
9-character multibase/multicodec head "f01701220" of metadata_hash and
hex-decode the remainder. -/
def claimed_digest (metadata_hash : String) : Option (List Nat) :=
  bytesFromHexAux (metadata_hash.data.drop 9)

/-- C5 (code bug): for the metadata hash whose digest is 32 zero bytes
(hex digits that all belong to the stripped character set), lstrip eats
the whole digest, so deploy_mech hex-decodes the empty string and passes
empty bytes to the create call instead of the 32 digest bytes the claim
(and the spec's "decoded from its multibase/multicodec head") requires. -/
theorem deploy_mech_digest_lstrip_bug :
    deploy_mech_digest
        "f017012200000000000000000000000000000000000000000000000000000000000000000"
      = some [] ∧
    claimed_digest
        "f017012200000000000000000000000000000000000000000000000000000000000000000"
      = some (List.replicate 32 0) ∧
    some ([] : List Nat) ≠ some (List.replicate 32 0) := by
  refine ⟨by decide, by decide, by decide⟩

/-! ### C4 : the Agent Factory step (utils.py deploy_mech, 491-524) -/

/-- The on-chain transactions the Agent Factory step can submit. -/
inductive FactoryCall where
  | create (multisig : String) (digest : List Nat) (price : Nat)
      (marketplace : String)
deriving DecidableEq, Repr

/-- unit_to_wei(0.01), the hardcoded mech request price. -/
def mech_request_price : Nat := 10000000000000000

def MARKETPLACE_GNOSIS : String := "0x4554fE75c1f5576c1d7F765B2A036c199Adae329"

def AGENT_FACTORY_GNOSIS : String := "0x6D8CbEbCAD7397c63347D44448147Db05E7d17B0"

/-- deploy_mech: encodes the factory `create` call from the service
multisig, the digest decoded from metadata_hash, the hardcoded request
price and the marketplace address, settles it through the safe tx
builder, then stores the receipt event's mech address and agent id into
the local config.  `event_mech` / `event_agent_id` are the values carried
by the CreateMech event of the receipt.  Returns the submitted calls and
the stored config; none models an exception raised before the transaction
is built (metadata_hash absent, or bytes.fromhex ValueError), in which
case nothing is submitted and the config is not stored. -/
def deploy_mech (cfg : MechQuickstartConfig) (multisig : String)
    (event_mech : String) (event_agent_id : Int) :
    Option (List FactoryCall × MechQuickstartConfig) :=
  match cfg.metadata_hash with
  | none => none
  | some mh =>
    match deploy_mech_digest mh with
    | none => none
    | some digest =>
      some ([FactoryCall.create multisig digest mech_request_price
               MARKETPLACE_GNOSIS],
            { cfg with mech_address := some event_mech,
                       agent_id := some event_agent_id })

/-- Modelled from the spec: the call site of deploy_mech (the Agent
Factory step of the run flow) is not under src/; per the spec it
"executes exactly once per LocalConfig (guarded by an agent_id is None
check)", so deploy_mech is invoked only when local_config.agent_id is
None and the step is skipped otherwise.  An exception inside deploy_mech
aborts the step with no call recorded. -/
def agent_factory_step (cfg : MechQuickstartConfig) (multisig : String)
    (event_mech : String) (event_agent_id : Int) :
    List FactoryCall × MechQuickstartConfig :=
  if cfg.agent_id = none then
    match deploy_mech cfg multisig event_mech event_agent_id with
    | some r => r
    | none => ([], cfg)
  else ([], cfg)

/-- n successive program invocations over the same persisted LocalConfig;
`mechs i` / `ids i` are the event values the chain would return at the
i-th invocation.  Accumulates all factory calls ever submitted. -/
def agent_factory_invocations (cfg : MechQuickstartConfig) (multisig : String)
    (mechs : Nat → String) (ids : Nat → Int) :
    Nat → List FactoryCall × MechQuickstartConfig
  | 0 => ([], cfg)
  | n + 1 =>
    let prev := agent_factory_invocations cfg multisig mechs ids n
    let step := agent_factory_step prev.2 multisig (mechs n) (ids n)
    (prev.1 ++ step.1, step.2)

theorem agent_factory_step_skip (cfg : MechQuickstartConfig) (multisig : String)
    (em : String) (ei : Int) (a : Int) (ha : cfg.agent_id = some a) :
    agent_factory_step cfg multisig em ei = ([], cfg) := by
  rw [agent_factory_step, if_neg (by rw [ha]; exact Option.noConfusion)]

theorem agent_factory_step_len (cfg : MechQuickstartConfig) (multisig : String)
    (em : String) (ei : Int) :
    (agent_factory_step cfg multisig em ei).1.length ≤ 1 ∧
    ((agent_factory_step cfg multisig em ei).2.agent_id = none →
      (agent_factory_step cfg multisig em ei).1 = []) := by
  by_cases h : cfg.agent_id = none
  · cases hm : cfg.metadata_hash with
    | none => simp [agent_factory_step, deploy_mech, h, hm]
    | some mh =>
      cases hdig : deploy_mech_digest mh with
      | none => simp [agent_factory_step, deploy_mech, h, hm, hdig]
      | some digest => simp [agent_factory_step, deploy_mech, h, hm, hdig]
  · simp [agent_factory_step, h]

theorem agent_factory_invocations_invariant (cfg : MechQuickstartConfig)
    (multisig : String) (mechs : Nat → String) (ids : Nat → Int) :
    ∀ n, (agent_factory_invocations cfg multisig mechs ids n).1.length ≤ 1 ∧
      ((agent_factory_invocations cfg multisig mechs ids n).2.agent_id = none →
        (agent_factory_invocations cfg multisig mechs ids n).1 = []) := by
  intro n
  induction n with
  | zero => exact ⟨by simp [agent_factory_invocations], fun _ => rfl⟩
  | succ m ih =>
    obtain ⟨ihlen, ihnone⟩ := ih
    rw [agent_factory_invocations]
    set prev := agent_factory_invocations cfg multisig mechs ids m
    obtain ⟨hslen, hsnone⟩ :=
      agent_factory_step_len prev.2 multisig (mechs m) (ids m)
    set step := agent_factory_step prev.2 multisig (mechs m) (ids m)
    constructor
    · by_cases hp : prev.2.agent_id = none
      · rw [ihnone hp]
        simpa using hslen
      · have : step = ([], prev.2) := by
          match ha : prev.2.agent_id with
          | none => exact absurd ha hp
          | some a => exact agent_factory_step_skip prev.2 multisig (mechs m) (ids m) a ha
        rw [this]
        simpa using ihlen
    · intro h2
      simp only [List.append_eq_nil]
      have hstep1 : step.1 = [] := hsnone h2
      refine ⟨?_, hstep1⟩
      by_cases hp : prev.2.agent_id = none
      · exact ihnone hp
      · have : step = ([], prev.2) := by
          match ha : prev.2.agent_id with
          | none => exact absurd ha hp
          | some a => exact agent_factory_step_skip prev.2 multisig (mechs m) (ids m) a ha
        rw [this] at h2
        exact absurd h2 hp

/-- C4: whenever local_config.agent_id is already set the Agent Factory
step is skipped (no call, config unchanged), and across any number of
program invocations over the same LocalConfig at most one factory create
transaction is ever executed. -/
theorem agent_factory_at_most_once (cfg : MechQuickstartConfig)
    (multisig : String) (mechs : Nat → String) (ids : Nat → Int) :
    (∀ a, cfg.agent_id = some a → ∀ em ei,
      agent_factory_step cfg multisig em ei = ([], cfg)) ∧
    (∀ n, (agent_factory_invocations cfg multisig mechs ids n).1.length ≤ 1) := by
  constructor
  · intro a ha em ei
    exact agent_factory_step_skip cfg multisig em ei a ha
  · intro n
    exact (agent_factory_invocations_invariant cfg multisig mechs ids n).1

/-- Witness: a config with agent_id pre-set skips the step, and three
invocations over a fresh config submit at most one create. -/
theorem agent_factory_at_most_once_witness :
    agent_factory_step { agent_id := some 7 } "0xsafe" "0xmech" 9 =
      ([], { agent_id := some 7 }) ∧
    (agent_factory_invocations
        { metadata_hash := some "f01701220ab" } "0xsafe"
        (fun _ => "0xmech") (fun _ => 9) 3).1.length ≤ 1 :=
  ⟨(agent_factory_at_most_once { agent_id := some 7 } "0xsafe"
      (fun _ => "0xmech") (fun _ => 9)).1 7 rfl "0xmech" 9,
   (agent_factory_at_most_once { metadata_hash := some "f01701220ab" } "0xsafe"
      (fun _ => "0xmech") (fun _ => 9)).2 3⟩

/-! ### C7 : the metadata validator (setup_metadata_hash.py 86-248)

`__validate_metadata_file` loads a JSON document and walks it against the
fixed schemas; the file-reading prelude (FileNotFoundError /
JSONDecodeError) is a boundary concern, so the model takes the parsed
top-level JSON object (a dict, per the function's `metadata: Dict`
annotation).  `Except.error` models an uncaught Python exception;
`Except.ok (b, msg)` is the function's returned pair. -/

/-- The Python types the schemas name (str, typing.List, typing.Dict). -/
inductive PyType where
  | tStr
  | tList
  | tDict
deriving DecidableEq, Repr

/-- isinstance(v, ·) for the three schema types. -/
def PyType.check : PyType → JValue → Bool
  | .tStr, .s _ => true
  | .tList, .list _ => true
  | .tDict, .dict _ => true
  | _, _ => false

/-- `expected_type.__name__` in the error messages. -/
def PyType.name : PyType → String
  | .tStr => "str"
  | .tList => "List"
  | .tDict => "Dict"

/-- Python `type(v).__name__` for the modelled values. -/
def pyTypeName : JValue → String
  | .s _ => "str"
  | .i _ => "int"
  | .b _ => "bool"
  | .null => "NoneType"
  | .list _ => "list"
  | .dict _ => "dict"

/-- Python `key in container` for a string key: key lookup on a dict,
element equality on a list, substring test on a string (the schema keys
tested are never empty), TypeError on the other values. -/
def pyInStr (key : String) : JValue → Except String Bool
  | .dict es => Except.ok (List.lookup key es).isSome
  | .list xs =>
    Except.ok (xs.any fun x => match x with | JValue.s v => v == key | _ => false)
  | .s v => Except.ok (decide (1 < (v.splitOn key).length))
  | _ => Except.error "TypeError: argument of type is not iterable"

/-- Python `container[key]` for a string key: dict lookup (KeyError when
the key is absent; the call sites test membership first), TypeError on
non-dict containers (string/list indices must be integers). -/
def pyIndexStr (key : String) : JValue → Except String JValue
  | .dict es =>
    match List.lookup key es with
    | some v => Except.ok v
    | none => Except.error "KeyError"
  | _ => Except.error "TypeError: indices must be integers"

/-- Python len(): sized values only, TypeError otherwise. -/
def pyLen : JValue → Option Nat
  | .s v => some v.length
  | .list xs => some xs.length
  | .dict es => some es.length
  | _ => none

/-- The fixed schemas of setup_metadata_hash.py (15-52), keys in source
order. -/
def metadata_schema : List (String × PyType) :=
  [("name", PyType.tStr), ("description", PyType.tStr),
   ("inputFormat", PyType.tStr), ("outputFormat", PyType.tStr),
   ("image", PyType.tStr), ("tools", PyType.tList),
   ("toolMetadata", PyType.tDict)]

def tool_schema : List (String × PyType) :=
  [("name", PyType.tStr), ("description", PyType.tStr),
   ("input", PyType.tDict), ("output", PyType.tDict)]

def tool_input_schema : List (String × PyType) :=
  [("type", PyType.tStr), ("description", PyType.tStr)]

def tool_output_schema : List (String × PyType) :=
  [("type", PyType.tStr), ("description", PyType.tStr),
   ("schema", PyType.tDict)]

def output_schema_schema : List (String × PyType) :=
  [("properties", PyType.tDict), ("required", PyType.tList),
   ("type", PyType.tStr)]

def properties_schema : List (String × PyType) :=
  [("requestId", PyType.tDict), ("result", PyType.tDict),
   ("prompt", PyType.tDict)]

def properties_data_schema : List (String × PyType) :=
  [("type", PyType.tStr), ("description", PyType.tStr)]

/-- Sequencing of the nested loop passes: an exception or a validation
failure propagates, success continues with the enclosing loop. -/
def afterPass (r : Except String (Option String))
    (cont : Except String (Option String)) : Except String (Option String) :=
  match r with
  | Except.error e => Except.error e
  | Except.ok (some msg) => Except.ok (some msg)
  | Except.ok none => cont

/-- The `for key in properties_data_schema` loop (lines 229-246):
`data = properties_data[p_key]`. -/
def propsDataPass (p_key : String) (data : JValue) :
    List (String × PyType) → Except String (Option String)
  | [] => Except.ok none
  | (key, ty) :: rest =>
    match pyInStr key data with
    | Except.error e => Except.error e
    | Except.ok false =>
      Except.ok (some ("Missing key in properties -> " ++ p_key ++ ": '" ++
        key ++ "'"))
    | Except.ok true =>
      match pyIndexStr key data with
      | Except.error e => Except.error e
      | Except.ok v =>
        if ty.check v then propsDataPass p_key data rest
        else
          Except.ok (some ("Invalid type for key in properties. Expected '" ++
            ty.name ++ "', but got '" ++ pyTypeName v ++ "'"))

/-- The `for p_key in properties_schema` loop (lines 198-246): each
iteration checks presence and type of the property, re-reads `required`
from the surrounding schema dict, compares the two lengths, then runs the
inner pass. -/
def propertiesPass (tool : String) (properties_data : JValue) (osd : JValue) :
    List (String × PyType) → Except String (Option String)
  | [] => Except.ok none
  | (p_key, ty) :: rest =>
    match pyInStr p_key properties_data with
    | Except.error e => Except.error e
    | Except.ok false =>
      Except.ok (some ("Missing key for " ++ tool ++
        " -> output -> schema -> properties: '" ++ p_key ++ "'"))
    | Except.ok true =>
      match pyIndexStr p_key properties_data with
      | Except.error e => Except.error e
      | Except.ok pv =>
        if ty.check pv then
          match pyIndexStr "required" osd with
          | Except.error e => Except.error e
          | Except.ok required =>
            match pyLen properties_data, pyLen required with
            | some num_of_properties_data, some num_of_required =>
              if num_of_properties_data ≠ num_of_required then
                Except.ok (some
                  ("Number of properties data does not match number of keys in 'required'. Expected "
                    ++ toString num_of_required ++ " but got " ++
                    toString num_of_properties_data ++ "."))
              else
                afterPass (propsDataPass p_key pv properties_data_schema)
                  (propertiesPass tool properties_data osd rest)
            | _, _ => Except.error "TypeError: object has no len()"
        else
          Except.ok (some ("Invalid type for '" ++ p_key ++ "' in " ++ tool ++
            " -> output -> schema -> properties. Expected '" ++ ty.name ++
            "', but got '" ++ pyTypeName pv ++ "'."))

/-- The `for s_key in output_schema_schema` loop (lines 172-217);
the properties pass runs only when s_key == "properties" and "required"
is present. -/
def outputSchemaPass (tool : String) (osd : JValue) :
    List (String × PyType) → Except String (Option String)
  | [] => Except.ok none
  | (s_key, ty) :: rest =>
    match pyInStr s_key osd with
    | Except.error e => Except.error e
    | Except.ok false =>
      Except.ok (some ("Missing key for " ++ tool ++ " -> output -> schema: '"
        ++ s_key ++ "'"))
    | Except.ok true =>
      match pyIndexStr s_key osd with
      | Except.error e => Except.error e
      | Except.ok v =>
        if ty.check v then
          if s_key = "properties" then
            match pyInStr "required" osd with
            | Except.error e => Except.error e
            | Except.ok true =>
              afterPass (propertiesPass tool v osd properties_schema)
                (outputSchemaPass tool osd rest)
            | Except.ok false => outputSchemaPass tool osd rest
          else outputSchemaPass tool osd rest
        else
          Except.ok (some ("Invalid type for '" ++ s_key ++ "' in " ++ tool ++
            " -> output -> schema. Expected '" ++ ty.name ++ "', but got '" ++
            pyTypeName v ++ "'."))

/-- The `for o_key in tool_output_schema` loop (lines 156-217). -/
def outputPass (tool : String) (output_data : JValue) :
    List (String × PyType) → Except String (Option String)
  | [] => Except.ok none
  | (o_key, ty) :: rest =>
    match pyInStr o_key output_data with
    | Except.error e => Except.error e
    | Except.ok false =>
      Except.ok (some ("Missing key for " ++ tool ++ " -> output: '" ++ o_key
        ++ "'"))
    | Except.ok true =>
      match pyIndexStr o_key output_data with
      | Except.error e => Except.error e
      | Except.ok v =>
        if ty.check v then
          if o_key = "schema" then
            afterPass (outputSchemaPass tool v output_schema_schema)
              (outputPass tool output_data rest)
          else outputPass tool output_data rest
        else
          Except.ok (some ("Invalid type for '" ++ o_key ++ "' in " ++ tool ++
            " -> output. Expected '" ++ ty.name ++ "', but got '" ++
            pyTypeName v ++ "'."))

/-- The `for i_key in tool_input_schema` loop (lines 139-153). -/
def inputPass (tool : String) (input_data : JValue) :
    List (String × PyType) → Except String (Option String)
  | [] => Except.ok none
  | (i_key, ty) :: rest =>
    match pyInStr i_key input_data with
    | Except.error e => Except.error e
    | Except.ok false =>
      Except.ok (some ("Missing key for " ++ tool ++ " -> input: '" ++ i_key
        ++ "'"))
    | Except.ok true =>
      match pyIndexStr i_key input_data with
      | Except.error e => Except.error e
      | Except.ok v =>
        if ty.check v then inputPass tool input_data rest
        else
          Except.ok (some ("Invalid type for '" ++ i_key ++ "' in " ++ tool ++
            " -> input. Expected '" ++ ty.name ++ "', but got '" ++
            pyTypeName v ++ "'."))

/-- The `for key in tool_schema` loop (lines 125-217); the nested passes
run for the "input" and "output" keys after their isinstance check. -/
def toolPass (tool : String) (tdata : JValue) :
    List (String × PyType) → Except String (Option String)
  | [] => Except.ok none
  | (key, ty) :: rest =>
    match pyInStr key tdata with
    | Except.error e => Except.error e
    | Except.ok false =>
      Except.ok (some ("Missing key in toolsMetadata: '" ++ key ++ "'"))
    | Except.ok true =>
      match pyIndexStr key tdata with
      | Except.error e => Except.error e
      | Except.ok v =>
        if ty.check v then
          if key = "input" then
            afterPass (inputPass tool v tool_input_schema)
              (toolPass tool tdata rest)
          else if key = "output" then
            afterPass (outputPass tool v tool_output_schema)
              (toolPass tool tdata rest)
          else toolPass tool tdata rest
        else
          Except.ok (some ("Invalid type for key in toolsMetadata. Expected '"
            ++ ty.name ++ "', but got '" ++ pyTypeName v ++ "'"))

/-- Python `tool in tools_metadata` followed by `tools_metadata[tool]` for
an arbitrary JSON value used as key: a string key is looked up; a
list/dict key is unhashable (TypeError); other keys are absent since JSON
object keys are strings. -/
def dictFind (es : List (String × JValue)) : JValue → Except String (Option JValue)
  | JValue.s k => Except.ok (List.lookup k es)
  | JValue.list _ => Except.error "TypeError: unhashable type"
  | JValue.dict _ => Except.error "TypeError: unhashable type"
  | _ => Except.ok none

/-- The `for tool in tools` loop (lines 121-217). -/
def toolsPass (tmd : List (String × JValue)) :
    List JValue → Except String (Option String)
  | [] => Except.ok none
  | tool :: rest =>
    match dictFind tmd tool with
    | Except.error e => Except.error e
    | Except.ok none =>
      Except.ok (some ("Missing toolsMetadata for tool: '" ++ pyStr tool ++ "'"))
    | Except.ok (some tdata) =>
      afterPass (toolPass (pyStr tool) tdata tool_schema) (toolsPass tmd rest)

/-- The `for key in metadata_schema` loop (lines 98-108) over the parsed
top-level object. -/
def metadataPass (metadata : List (String × JValue)) :
    List (String × PyType) → Option String
  | [] => none
  | (key, ty) :: rest =>
    match List.lookup key metadata with
    | none => some ("Missing key in metadata json: '" ++ key ++ "'")
    | some v =>
      if ty.check v then metadataPass metadata rest
      else
        some ("Invalid type for key in metadata json. Expected '" ++ ty.name ++
          "', but got '" ++ pyTypeName v ++ "'")

/-- __validate_metadata_file on the parsed top-level object: the
metadata_schema pass, then the tools / toolMetadata count comparison,
then the per-tool pass; (True, "") on full success. -/
def validate_metadata_file (metadata : List (String × JValue)) :
    Except String (Bool × String) :=
  match metadataPass metadata metadata_schema with
  | some msg => Except.ok (false, msg)
  | none =>
    match List.lookup "tools" metadata, List.lookup "toolMetadata" metadata with
    | some (JValue.list tools), some (JValue.dict tools_metadata) =>
      let num_of_tools := tools.length
      let num_of_tools_metadata := tools_metadata.length
      if num_of_tools ≠ num_of_tools_metadata then
        Except.ok (false,
          "Number of tools does not match number of keys in 'toolMetadata'. Expected "
            ++ toString num_of_tools ++ " but got " ++
            toString num_of_tools_metadata ++ ".")
      else
        match toolsPass tools_metadata tools with
        | Except.error e => Except.error e
        | Except.ok (some msg) => Except.ok (false, msg)
        | Except.ok none => Except.ok (true, "")
    | _, _ =>
      -- unreachable: presence and isinstance of "tools" (List) and
      -- "toolMetadata" (Dict) were established by the metadata_schema pass
      Except.error "KeyError"

/-- A minimal valid document: every required top-level field with its
required type, no tools. -/
def minimal_metadata : List (String × JValue) :=
  [("name", JValue.s "mech"), ("description", JValue.s "a mech"),
   ("inputFormat", JValue.s "ipfs-v0.1"), ("outputFormat", JValue.s "ipfs-v0.1"),
   ("image", JValue.s "ipfs://img"), ("tools", JValue.list []),
   ("toolMetadata", JValue.dict [])]

/-- The minimal document with the toolMetadata entry removed. -/
def metadata_missing_toolMetadata : List (String × JValue) :=
  [("name", JValue.s "mech"), ("description", JValue.s "a mech"),
   ("inputFormat", JValue.s "ipfs-v0.1"), ("outputFormat", JValue.s "ipfs-v0.1"),
   ("image", JValue.s "ipfs://img"), ("tools", JValue.list [])]

/-- The minimal document with one tool listed but no per-tool metadata. -/
def metadata_count_mismatch : List (String × JValue) :=
  [("name", JValue.s "mech"), ("description", JValue.s "a mech"),
   ("inputFormat", JValue.s "ipfs-v0.1"), ("outputFormat", JValue.s "ipfs-v0.1"),
   ("image", JValue.s "ipfs://img"), ("tools", JValue.list [JValue.s "t1"]),
   ("toolMetadata", JValue.dict [])]

/-- C7: the validator returns success (True, "") on a minimal document
with all required top-level fields correctly typed; a failure naming the
missing key when toolMetadata is absent; and the count-mismatch failure
when the number of tools differs from the number of toolMetadata keys. -/
theorem validate_metadata_file_cases :
    validate_metadata_file minimal_metadata = Except.ok (true, "") ∧
    validate_metadata_file metadata_missing_toolMetadata =
      Except.ok (false, "Missing key in metadata json: 'toolMetadata'") ∧
    validate_metadata_file metadata_count_mismatch =
      Except.ok (false,
        "Number of tools does not match number of keys in 'toolMetadata'. Expected 1 but got 0.") := by
  refine ⟨by rfl, by rfl, by rfl⟩

end MechQuickstart
